import Mathlib

/-!
Verification development for the drone_mobile communication/session core.

The JavaScript source is shallowly embedded:
* JS strings are Lean `String`s; the JS primitives `split`, `trim`,
  `includes` are re-implemented over the character list (`jsSplit`,
  `jsTrim`, `jsIncludes`) with JS semantics for single-character
  separators and ASCII whitespace.
* The module-level mutable variables `commandSocket` and `statusCallback`
  of `src/services/telloService.js` become the `TelloState` record,
  threaded explicitly; the socket and the observer callback are abstracted
  to numeric identifiers.
* Transport outcomes (bind result, send result, close result) are injected
  as `Option String` parameters (`none` = success, `some e` = the error
  message the transport reports).
* Observable side effects (UDP transmissions, codec invocations, observer
  callbacks, log lines, collaborator calls, redux dispatches) are recorded
  in an `Event` trace.
-/

deriving instance DecidableEq for Except

namespace DroneMobile

/-! ### JS string primitives -/

/-- ASCII whitespace recognised by JS `String.prototype.trim`
(Unicode whitespace beyond ASCII is not modelled; the telemetry protocol
is plain ASCII). -/
def isJsWs (c : Char) : Bool :=
  c == ' ' || c == '\t' || c == '\n' || c == '\r' || c == '\x0b' || c == '\x0c'

/-- `trim` on the character list: drop whitespace from both ends. -/
def trimChars (l : List Char) : List Char :=
  ((l.dropWhile isJsWs).reverse.dropWhile isJsWs).reverse

/-- JS `s.trim()`. -/
def jsTrim (s : String) : String := ⟨trimChars s.data⟩

/-- Character membership on the character list. -/
def hasChar (sep : Char) : List Char → Bool
  | [] => false
  | c :: cs => if c = sep then true else hasChar sep cs

/-- JS `s.includes(c)` for a single-character needle. -/
def jsIncludes (s : String) (c : Char) : Bool := hasChar c s.data

/-- Worker for `jsSplit`: `acc` holds the current fragment reversed. -/
def splitChars (sep : Char) : List Char → List Char → List (List Char)
  | [], acc => [acc.reverse]
  | c :: cs, acc =>
      if c = sep then acc.reverse :: splitChars sep cs []
      else splitChars sep cs (c :: acc)

/-- JS `s.split(sep)` for a single-character separator: always returns at
least one fragment; `"".split(sep)` is `[""]`, and adjacent or trailing
separators produce empty fragments. -/
def jsSplit (s : String) (sep : Char) : List String :=
  (splitChars sep s.data []).map String.mk

/-! ### Telemetry Codec (`parseStatusString`, telloService.js lines 12-33) -/

/-- JS object property write `statusData[k] = v`: overwrite in place if the
key exists, otherwise append. -/
def insertKV (m : List (String × String)) (k v : String) :
    List (String × String) :=
  if m.any (fun p => p.1 = k) then
    m.map (fun p => if p.1 = k then (p.1, v) else p)
  else m ++ [(k, v)]

/-- JS object property read `statusData[k]`: first (hence, keys being
unique, only) binding of `k`. -/
def lookupKV (m : List (String × String)) (q : String) : Option String :=
  match m with
  | [] => none
  | p :: rest => if p.1 = q then some p.2 else lookupKV rest q

/-- One iteration of the `forEach` body of `parseStatusString`:
`if (pair && pair.includes(':')) { const [key, value] = pair.split(':');
if (key && value !== undefined) { ... trim ... statusData[k] = v } }`.
Note the destructuring takes `value` to be the SECOND element of the
colon-split, i.e. the text between the first and the second colon. -/
def procPair (acc : List (String × String)) (pair : String) :
    List (String × String) :=
  if pair = "" then acc
  else if jsIncludes pair ':' then
    match jsSplit pair ':' with
    | key :: value :: _ =>
        if key = "" then acc
        else if jsTrim key = "" then acc
        else insertKV acc (jsTrim key) (jsTrim value)
    | _ => acc
  else acc

/-- The loop of `parseStatusString`: fold the `forEach` body over the
semicolon-split fragments, starting from the empty object. -/
def parseStatusStringImpl (s : String) : List (String × String) :=
  (jsSplit s ';').foldl procPair []

/-- `parseStatusString`: the `try` body never throws for string inputs
(every operation used — split, includes, trim, property write — is total
on strings), so the `catch` branch returning `null` (modelled as `none`)
is unreachable. -/
def parseStatusString (s : String) : Option (List (String × String)) :=
  some (parseStatusStringImpl s)

/-- Spec-side per-fragment rule, as amended: a fragment whose colon-split
has at least two parts yields its first part as key and its second part as
value (text between the first and second colon), both trimmed; dropped if
the trimmed key is empty; a fragment with no colon yields nothing. -/
def fragKV (frag : String) : Option (String × String) :=
  match jsSplit frag ':' with
  | key :: value :: _ =>
      if jsTrim key = "" then none else some (jsTrim key, jsTrim value)
  | _ => none

/-- Spec-side lookup: the value of `q` is the one contributed by the LAST
fragment whose key equals `q` (last write wins). -/
def specLookup (s q : String) : Option String :=
  (jsSplit s ';').foldl
    (fun r frag =>
      match fragKV frag with
      | some kv => if kv.1 = q then some kv.2 else r
      | none => r)
    none

/-- Claim-as-written per-fragment rule (split on the FIRST colon only, the
value keeping any further colons), used to exhibit the divergence from the
code. -/
def joinColon : List String → String
  | [] => ""
  | [x] => x
  | x :: xs => x ++ ":" ++ joinColon xs

def fragKVFirst (frag : String) : Option (String × String) :=
  match jsSplit frag ':' with
  | key :: rest =>
      match rest with
      | [] => none
      | _ =>
          if jsTrim key = "" then none
          else some (jsTrim key, jsTrim (joinColon rest))
  | [] => none

def specLookupFirst (s q : String) : Option String :=
  (jsSplit s ';').foldl
    (fun r frag =>
      match fragKVFirst frag with
      | some kv => if kv.1 = q then some kv.2 else r
      | none => r)
    none

/-! ### Drone Link (module state of telloService.js) -/

/-- Fixed drone address, telloService.js line 4. -/
def TELLO_IP : String := "192.168.10.1"

/-- Fixed drone command port, telloService.js line 5. -/
def TELLO_COMMAND_PORT : Nat := 8889

/-- Fixed local bind port, telloService.js line 6. -/
def LOCAL_COMMAND_PORT_BIND : Nat := 9000

/-- The module-level mutable state of telloService.js: `commandSocket` and
`statusCallback`.  Sockets and observer callbacks are abstracted to
numeric identifiers. -/
structure TelloState where
  commandSocket : Option Nat
  statusCallback : Option Nat
deriving DecidableEq, Repr

/-- Observable side effects, in the order they occur. -/
inductive Event
  /-- `socket.bind(port, ...)` was invoked. -/
  | bindAttempt (port : Nat)
  /-- `commandSocket.send(payload, 0, len, port, addr, ...)` was invoked. -/
  | udpSend (payload : String) (port : Nat) (addr : String)
  /-- the underlying endpoint release `commandSocket.close()` was invoked. -/
  | socketClose
  /-- `parseStatusString` was invoked on a datagram's text. -/
  | codecParse (raw : String)
  /-- the observer was invoked with a parsed telemetry snapshot. -/
  | observerCall (obs : Nat) (data : List (String × String))
  /-- the observer was invoked with an `{error: msg}` payload. -/
  | observerErrorCall (obs : Nat) (msg : String)
  /-- a diagnostic console line. -/
  | log (line : String)
  /-- `ffmpegService.stop()` was invoked. -/
  | callFfmpegStop
  /-- `ffmpegService.start(port)` was invoked. -/
  | callFfmpegStart (port : Nat)
  /-- `telloService.sendCommand('streamoff')` was invoked (disconnect). -/
  | callSendStreamoff
  /-- `telloService.close()` was invoked (disconnect). -/
  | callTelloClose
  /-- `orientationService.unlock()` was invoked. -/
  | callUnlock
  /-- redux `dispatch(setStreaming(b))`. -/
  | dispatchSetStreaming (b : Bool)
  /-- redux `dispatch(setConnecting(b))`. -/
  | dispatchSetConnecting (b : Bool)
  /-- redux `dispatch(setError(m))`. -/
  | dispatchSetError (m : Option String)
deriving DecidableEq, Repr

/-- `initialize(onStatusUpdate)`, telloService.js lines 36-107.
If `commandSocket` exists: warn, store the callback, resolve — no bind.
Otherwise store the callback, create a socket and bind: on bind error
(`bindErr = some e`) null out both module variables and reject with the
bind message; on success store the socket and resolve.  (Socket creation
itself has no failure mode in this transport model; the surrounding JS
`try/catch` around `dgram.createSocket` is therefore not exercised.) -/
def initLink (st : TelloState) (onStatusUpdate : Option Nat) (newSock : Nat)
    (bindErr : Option String) :
    TelloState × Except String Unit × List Event :=
  match st.commandSocket with
  | some _ =>
      ({ st with statusCallback := onStatusUpdate }, Except.ok (),
       [Event.log "Tello Service: Socket already initialized."])
  | none =>
      match bindErr with
      | some e =>
          (⟨none, none⟩,
           Except.error
             ("Tello Service: Failed to bind socket to port "
               ++ toString LOCAL_COMMAND_PORT_BIND ++ ": " ++ e),
           [Event.bindAttempt LOCAL_COMMAND_PORT_BIND])
      | none =>
          (⟨some newSock, onStatusUpdate⟩, Except.ok (),
           [Event.bindAttempt LOCAL_COMMAND_PORT_BIND])

/-- `sendCommand(command)`, telloService.js lines 110-128.
With no socket: reject with "Socket not initialized", no I/O.  Otherwise
hand the datagram to the transport (recorded as a `udpSend` to the fixed
peer address/port); `sendErr` injects the transport's verdict. -/
def sendCommand (st : TelloState) (cmd : String) (sendErr : Option String) :
    Except String Unit × List Event :=
  match st.commandSocket with
  | none => (Except.error "Socket not initialized", [])
  | some _ =>
      match sendErr with
      | some e =>
          (Except.error e, [Event.udpSend cmd TELLO_COMMAND_PORT TELLO_IP])
      | none =>
          (Except.ok (), [Event.udpSend cmd TELLO_COMMAND_PORT TELLO_IP])

/-- `close()`, telloService.js lines 131-149.
With a socket: release it (`releaseErr` injects a throwing release, which
is caught and logged), then — in the `finally` — null out both module
variables; resolve.  With no socket: log and resolve, touching nothing. -/
def close (st : TelloState) (releaseErr : Option String) :
    TelloState × Except String Unit × List Event :=
  match st.commandSocket with
  | some _ =>
      (⟨none, none⟩, Except.ok (),
       Event.socketClose ::
         (match releaseErr with
          | some e => [Event.log ("Tello Service: Error closing socket: " ++ e)]
          | none => []))
  | none =>
      (st, Except.ok (),
       [Event.log "Tello Service: Close called but no socket to close."])

/-- The `socket.on('message')` handler, telloService.js lines 61-86.
Decode the datagram; if its text contains both `:` and `;`, parse it with
the codec and, when both a parse result and a callback exist, invoke the
callback; otherwise only log the line. -/
def onMessage (st : TelloState) (msg : String) : List Event :=
  if jsIncludes msg ':' && jsIncludes msg ';' then
    match parseStatusString msg with
    | some data =>
        Event.codecParse msg ::
          (match st.statusCallback with
           | some obs => [Event.observerCall obs data]
           | none => [])
    | none =>
        [Event.codecParse msg,
         Event.log ("Tello Service: Received message looked like status but failed to parse: " ++ msg)]
  else
    [Event.log ("Tello Service: Drone response: " ++ msg)]

/-- The `socket.on('error')` handler, telloService.js lines 51-59.
It calls `close()` — whose promise executor runs synchronously and, when a
socket exists, nulls out `statusCallback` — and only then checks
`if (statusCallback)` before notifying the observer with `{error: msg}`. -/
def onSocketError (st : TelloState) (errMsg : String) : TelloState × List Event :=
  let fullMsg := "Tello Service: UDP Socket error: " ++ errMsg
  let c := close st none
  let st' := c.1
  (st',
   c.2.2 ++
     (match st'.statusCallback with
      | some obs => [Event.observerErrorCall obs fullMsg]
      | none => []))

/-! ### Session Orchestrator (telloSlice.js thunks and reducers) -/

/-- The Redux slice state, telloSlice.js lines 400-405.  The constant
`videoUrl` field is omitted (never mutated). -/
structure SessionState where
  isConnecting : Bool
  isStreaming : Bool
  errorMessage : Option String
deriving DecidableEq, Repr

/-- The whole mutable world the thunks touch: the redux slice and the
telloService module state. -/
structure World where
  sess : SessionState
  link : TelloState
deriving DecidableEq, Repr

/-- Injected collaborator/transport outcomes for one run of a thunk
(`none` = the step succeeds, `some e` = it fails with message `e`).
`orientationService.unlock()` is fire-and-forget with no failure mode
(§6 of the spec declares no return value consumed), so it carries no
outcome here. -/
structure Env where
  newSock : Nat
  bindErr : Option String
  cmdErr : Option String
  streamonErr : Option String
  ffmpegStartErr : Option String
  ffmpegStopErr : Option String
  streamoffErr : Option String
  closeErr : Option String
deriving DecidableEq, Repr

/-- telloSlice.js line 318. -/
def LOCAL_VIDEO_OUTPUT_HTTP_PORT : Nat := 11112

/-- The `disconnect` thunk, telloSlice.js lines 360-397, followed by the
`disconnect.fulfilled` reducer (lines 440-446).  Immediately dispatches
`setStreaming(false)` and `setConnecting(false)`; then, each in its own
`try/catch`: `ffmpegService.stop()`, `telloService.sendCommand('streamoff')`
(with an inner `.catch`), `telloService.close()`; then
`orientationService.unlock()` and `dispatch(setError(null))`; resolves
`true`. -/
def disconnectThunk (w : World) (env : Env) :
    World × List Event × Except String Bool :=
  let s0 : SessionState :=
    { w.sess with isStreaming := false, isConnecting := false }
  let send := sendCommand w.link "streamoff" env.streamoffErr
  let c := close w.link env.closeErr
  let link' := c.1
  let tr :=
    [Event.dispatchSetStreaming false, Event.dispatchSetConnecting false,
     Event.callFfmpegStop] ++
    (match env.ffmpegStopErr with
     | some e => [Event.log ("Error stopping FFmpeg: " ++ e)]
     | none => []) ++
    [Event.callSendStreamoff] ++ send.2 ++
    [Event.callTelloClose] ++ c.2.2 ++
    [Event.callUnlock, Event.dispatchSetError none]
  -- thunk body sets errorMessage := none; the fulfilled reducer then
  -- re-asserts isConnecting/isStreaming false and errorMessage none
  let s1 : SessionState :=
    { s0 with isConnecting := false, isStreaming := false, errorMessage := none }
  (⟨s1, link'⟩, tr, Except.ok true)

/-- `error.message || 'Failed to connect and stream'` of
`rejectWithValue`, telloSlice.js line 351. -/
def orFallback (e : String) : String :=
  if e = "" then "Failed to connect and stream" else e

/-- The `catch`/`finally` tail of the `connectAndStream` thunk
(telloSlice.js lines 347-355) followed by the `connectAndStream.rejected`
reducer (lines 434-438): run the full `disconnect` thunk for cleanup,
reject with the ORIGINAL error's message (with the `||` fallback), let
the `finally` dispatch `setConnecting(false)`, and let the rejected
reducer record `Connect Error: <payload>`. -/
def connectFail (w : World) (env : Env) (evs : List Event) (e : String) :
    World × List Event × Except String Bool :=
  let d := disconnectThunk w env
  let payload := orFallback e
  let s1 : SessionState :=
    { d.1.sess with isConnecting := false, isStreaming := false,
                    errorMessage := some ("Connect Error: " ++ payload) }
  (⟨s1, d.1.link⟩,
   evs ++ d.2.1 ++ [Event.dispatchSetConnecting false],
   Except.error payload)

/-- The `connectAndStream` thunk, telloSlice.js lines 324-357, with its
`pending` (lines 425-428) and `fulfilled` (lines 429-433) reducers.
Step sequence: `telloService.initialize()` — note: invoked with NO
callback argument, so the stored observer becomes `none` —, then
`sendCommand('command')`, a fixed delay, `sendCommand('streamon')`, a
fixed delay, `ffmpegService.start(11112)`, `dispatch(setStreaming(true))`;
any step failure is routed through `connectFail`. -/
def connectAndStreamThunk (w : World) (env : Env) :
    World × List Event × Except String Bool :=
  -- pending reducer, then dispatch(setError(null)); dispatch(setConnecting(true))
  let s2 : SessionState :=
    { w.sess with isConnecting := true, errorMessage := none }
  let evs0 := [Event.dispatchSetError none, Event.dispatchSetConnecting true]
  let i := initLink w.link none env.newSock env.bindErr
  let link1 := i.1
  let evs1 := evs0 ++ i.2.2
  match i.2.1 with
  | Except.error e => connectFail ⟨s2, link1⟩ env evs1 e
  | Except.ok _ =>
    let sc := sendCommand link1 "command" env.cmdErr
    let evs2 := evs1 ++ sc.2
    match sc.1 with
    | Except.error e => connectFail ⟨s2, link1⟩ env evs2 e
    | Except.ok _ =>
      let ss := sendCommand link1 "streamon" env.streamonErr
      let evs3 := evs2 ++ ss.2
      match ss.1 with
      | Except.error e => connectFail ⟨s2, link1⟩ env evs3 e
      | Except.ok _ =>
        match env.ffmpegStartErr with
        | some e =>
            connectFail ⟨s2, link1⟩ env
              (evs3 ++ [Event.callFfmpegStart LOCAL_VIDEO_OUTPUT_HTTP_PORT]) e
        | none =>
            -- dispatch(setStreaming(true)); finally setConnecting(false);
            -- fulfilled reducer re-asserts isConnecting := false
            let s3 : SessionState :=
              { s2 with isStreaming := true, isConnecting := false }
            (⟨s3, link1⟩,
             evs3 ++ [Event.callFfmpegStart LOCAL_VIDEO_OUTPUT_HTTP_PORT,
                      Event.dispatchSetStreaming true,
                      Event.dispatchSetConnecting false],
             Except.ok true)

/-- The message of the first failing step of `connectAndStream`, per the
spec's step order: open link (bind), handshake send, stream-enable send,
relay start; `none` when every step succeeds. -/
def expectedConnectFailure (w : World) (env : Env) : Option String :=
  match w.link.commandSocket, env.bindErr with
  | none, some e =>
      some (orFallback
        ("Tello Service: Failed to bind socket to port "
          ++ toString LOCAL_COMMAND_PORT_BIND ++ ": " ++ e))
  | _, _ =>
      match env.cmdErr with
      | some e => some (orFallback e)
      | none =>
          match env.streamonErr with
          | some e => some (orFallback e)
          | none => env.ffmpegStartErr.map orFallback

/-- Recognises the four disconnect cleanup steps of §4.4:
stop relay, send stream-disable, close link, release orientation lock. -/
def isStepMarker : Event → Bool
  | Event.callFfmpegStop => true
  | Event.callSendStreamoff => true
  | Event.callTelloClose => true
  | Event.callUnlock => true
  | _ => false

/-- Recognises a telemetry delivery to an observer. -/
def isTelemetryDelivery : Event → Bool
  | Event.observerCall _ _ => true
  | _ => false

/-- Recognises an error notification to an observer. -/
def isErrorNotify : Event → Bool
  | Event.observerErrorCall _ _ => true
  | _ => false

/-- The fresh world: slice at its `initialState`, no socket, no observer. -/
def w0 : World := ⟨⟨false, false, none⟩, ⟨none, none⟩⟩

/-- An environment in which every collaborator/transport step succeeds. -/
def envOK : Env := ⟨0, none, none, none, none, none, none, none⟩

/-- An environment in which the transport fails the `streamon` send. -/
def envStreamonFail : Env := ⟨0, none, none, some "boom", none, none, none, none⟩

/-! ### Lemmas about the string primitives -/

lemma string_mk_data (s : String) : String.mk s.data = s := by
  cases s
  rfl

lemma splitChars_ne_nil (sep : Char) (l acc : List Char) :
    splitChars sep l acc ≠ [] := by
  induction l generalizing acc with
  | nil => simp [splitChars]
  | cons c cs ih =>
      simp only [splitChars]
      split
      · simp
      · exact ih _

lemma splitChars_no_sep (sep : Char) (l : List Char)
    (h : hasChar sep l = false) :
    ∀ acc, splitChars sep l acc = [acc.reverse ++ l] := by
  induction l with
  | nil => intro acc; simp [splitChars]
  | cons c cs ih =>
      intro acc
      by_cases hc : c = sep
      · rw [hasChar, if_pos hc] at h
        exact absurd h (by simp)
      · rw [hasChar, if_neg hc] at h
        rw [splitChars, if_neg hc, ih h]
        simp

lemma splitChars_has_sep (sep : Char) (l : List Char)
    (h : hasChar sep l = true) :
    ∀ acc, ∃ a b r, splitChars sep l acc = a :: b :: r := by
  induction l with
  | nil => simp [hasChar] at h
  | cons c cs ih =>
      intro acc
      by_cases hc : c = sep
      · obtain ⟨b, r, hbr⟩ :=
          List.exists_cons_of_ne_nil (splitChars_ne_nil sep cs [])
        exact ⟨acc.reverse, b, r, by rw [splitChars, if_pos hc, hbr]⟩
      · rw [hasChar, if_neg hc] at h
        obtain ⟨a, b, r, habr⟩ := ih h (c :: acc)
        exact ⟨a, b, r, by rw [splitChars, if_neg hc, habr]⟩

lemma jsSplit_no_sep (s : String) (c : Char) (h : jsIncludes s c = false) :
    jsSplit s c = [s] := by
  unfold jsSplit
  rw [splitChars_no_sep c s.data h []]
  simp [string_mk_data]

lemma jsSplit_has_sep (s : String) (c : Char) (h : jsIncludes s c = true) :
    ∃ a b r, jsSplit s c = a :: b :: r := by
  obtain ⟨a, b, r, habr⟩ := splitChars_has_sep c s.data h []
  exact ⟨String.mk a, String.mk b, r.map String.mk, by rw [jsSplit, habr]; rfl⟩

/-! ### Lemmas about the JS-object model -/

lemma lookupKV_map_update (m : List (String × String)) (k v q : String)
    (hq : q ≠ k) :
    lookupKV (m.map (fun p => if p.1 = k then (p.1, v) else p)) q
      = lookupKV m q := by
  induction m with
  | nil => rfl
  | cons p rest ih =>
      by_cases hp : p.1 = k
      · have hpq : ¬ p.1 = q := fun hh => hq ((hh ▸ hp : q = k))
        have hkq : ¬ k = q := hp ▸ hpq
        simp [lookupKV, hp, hpq, hkq, ih]
      · by_cases hpq : p.1 = q
        · have hqk : ¬ q = k := hpq ▸ hp
          simp [lookupKV, hp, hpq, hqk]
        · simp [lookupKV, hp, hpq, ih]

lemma lookupKV_map_update_self (m : List (String × String)) (k v : String)
    (h : m.any (fun p => p.1 = k) = true) :
    lookupKV (m.map (fun p => if p.1 = k then (p.1, v) else p)) k
      = some v := by
  induction m with
  | nil => simp at h
  | cons p rest ih =>
      by_cases hp : p.1 = k
      · simp [lookupKV, hp]
      · have h' : rest.any (fun p => p.1 = k) = true := by
          simpa [List.any_cons, hp] using h
        simp [lookupKV, hp, ih h']

lemma lookupKV_append (m m' : List (String × String)) (q : String) :
    lookupKV (m ++ m') q =
      match lookupKV m q with
      | some v => some v
      | none => lookupKV m' q := by
  induction m with
  | nil => simp [lookupKV]
  | cons p rest ih => by_cases hp : p.1 = q <;> simp [lookupKV, hp, ih]

lemma lookupKV_none_of_not_any (m : List (String × String)) (k : String)
    (h : m.any (fun p => p.1 = k) = false) :
    lookupKV m k = none := by
  induction m with
  | nil => rfl
  | cons p rest ih =>
      by_cases hp : p.1 = k
      · rw [List.any_cons] at h
        simp [hp] at h
      · have h' : rest.any (fun p => p.1 = k) = false := by
          simpa [List.any_cons, hp] using h
        simp [lookupKV, hp, ih h']

lemma lookupKV_insertKV (m : List (String × String)) (k v q : String) :
    lookupKV (insertKV m k v) q
      = if q = k then some v else lookupKV m q := by
  unfold insertKV
  by_cases hq : q = k
  · subst hq
    cases hAny : m.any (fun p => p.1 = q) with
    | true => simp [lookupKV_map_update_self _ _ v hAny]
    | false =>
        simp [lookupKV_append, lookupKV_none_of_not_any m q hAny, lookupKV]
  · cases hAny : m.any (fun p => p.1 = k) with
    | true => simp [lookupKV_map_update m k v q hq, hq]
    | false =>
        have hkq : ¬ k = q := fun hh => hq hh.symm
        cases hlm : lookupKV m q <;>
          simp [lookupKV_append, hlm, lookupKV, hkq, hq]

/-! ### The codec agrees fragmentwise with the (amended) spec rule -/

lemma jsTrim_empty : jsTrim "" = "" := by decide

lemma jsSplit_empty (c : Char) : jsSplit "" c = [""] := by
  rw [jsSplit]
  rfl

lemma lookupKV_procPair (acc : List (String × String)) (pair q : String) :
    lookupKV (procPair acc pair) q =
      match fragKV pair with
      | some kv => if kv.1 = q then some kv.2 else lookupKV acc q
      | none => lookupKV acc q := by
  by_cases h0 : pair = ""
  · subst h0
    simp [procPair, fragKV, jsSplit_empty]
  · cases hInc : jsIncludes pair ':' with
    | false =>
        simp [procPair, fragKV, h0, hInc, jsSplit_no_sep pair ':' hInc]
    | true =>
        obtain ⟨a, b, r, habr⟩ := jsSplit_has_sep pair ':' hInc
        by_cases ha : a = ""
        · subst ha
          simp [procPair, fragKV, h0, hInc, habr, jsTrim_empty]
        · by_cases hta : jsTrim a = ""
          · simp [procPair, fragKV, h0, hInc, habr, ha, hta]
          · by_cases hq : jsTrim a = q
            · have htq : ¬ q = "" := hq ▸ hta
              simp [procPair, fragKV, h0, hInc, habr, ha, hta, hq, htq,
                    lookupKV_insertKV]
            · have hq' : ¬ q = jsTrim a := fun hh => hq hh.symm
              simp [procPair, fragKV, h0, hInc, habr, ha, hta, hq, hq',
                    lookupKV_insertKV]

lemma lookupKV_foldl (frags : List String) (acc : List (String × String))
    (q : String) :
    lookupKV (frags.foldl procPair acc) q =
      frags.foldl
        (fun r frag =>
          match fragKV frag with
          | some kv => if kv.1 = q then some kv.2 else r
          | none => r)
        (lookupKV acc q) := by
  induction frags generalizing acc with
  | nil => rfl
  | cons f fs ih =>
      simp only [List.foldl_cons]
      rw [ih (procPair acc f), lookupKV_procPair]

/-! ### Lemmas about the session thunks -/

lemma disconnectThunk_result (w : World) (env : Env) :
    (disconnectThunk w env).2.2 = Except.ok true := rfl

lemma disconnectThunk_sess (w : World) (env : Env) :
    (disconnectThunk w env).1.sess
      = { isConnecting := false, isStreaming := false, errorMessage := none } := rfl

lemma disconnectThunk_trace_take (w : World) (env : Env) :
    (disconnectThunk w env).2.1.take 2
      = [Event.dispatchSetStreaming false, Event.dispatchSetConnecting false] := rfl

lemma disconnectThunk_trace_filter (w : World) (env : Env) :
    (disconnectThunk w env).2.1.filter isStepMarker
      = [Event.callFfmpegStop, Event.callSendStreamoff,
         Event.callTelloClose, Event.callUnlock] := by
  cases w with
  | mk sess link =>
      cases link with
      | mk cs cb =>
          cases env with
          | mk ns be ce se fstart fstop soff cerr =>
              cases cs <;> cases fstop <;> cases soff <;> cases cerr <;>
                simp [disconnectThunk, sendCommand, close, isStepMarker]

lemma onMessage_no_observer (st : TelloState) (msg : String)
    (h : st.statusCallback = none) :
    (onMessage st msg).filter isTelemetryDelivery = [] := by
  unfold onMessage
  rw [h]
  split
  · simp [parseStatusString, isTelemetryDelivery]
  · simp [isTelemetryDelivery]

lemma connect_link_no_observer (w : World) (env : Env) :
    (connectAndStreamThunk w env).1.link.statusCallback = none := by
  cases w with
  | mk sess link =>
      cases link with
      | mk cs cb =>
          cases env with
          | mk ns be ce se fstart fstop soff cerr =>
              cases cs <;> cases be <;> cases ce <;> cases se <;> cases fstart <;>
                simp [connectAndStreamThunk, connectFail, disconnectThunk,
                      initLink, sendCommand, close]

/-! ### Claim theorems -/

/-- C1: the Drone Link routes an inbound datagram's decoded text to the
Telemetry Codec if and only if the text contains at least one `:` and at
least one `;`; a text failing the test is only logged — neither parsed
nor delivered to the observer — while a passing text is always parsed by
the Codec. -/
theorem c1_routing_iff (st : TelloState) (msg : String) :
    ((jsIncludes msg ':' && jsIncludes msg ';') = true
        ↔ Event.codecParse msg ∈ onMessage st msg)
    ∧ ((jsIncludes msg ':' && jsIncludes msg ';') = false
        → onMessage st msg
            = [Event.log ("Tello Service: Drone response: " ++ msg)]) := by
  cases h : (jsIncludes msg ':' && jsIncludes msg ';') with
  | true =>
      refine ⟨⟨fun _ => ?_, fun _ => rfl⟩, fun hf => Bool.noConfusion hf⟩
      unfold onMessage
      rw [h]
      simp [parseStatusString]
  | false =>
      have hlog : onMessage st msg
          = [Event.log ("Tello Service: Drone response: " ++ msg)] := by
        unfold onMessage
        rw [h]
        simp
      refine ⟨⟨fun ht => Bool.noConfusion ht, fun hm => ?_⟩, fun _ => hlog⟩
      rw [hlog] at hm
      simp at hm

/-- C1 witness: `"ok"` is only logged; `"a:1;b:2;"` reaches the Codec. -/
theorem c1_routing_iff_witness :
    onMessage ⟨some 0, some 1⟩ "ok"
        = [Event.log ("Tello Service: Drone response: " ++ "ok")]
      ∧ Event.codecParse "a:1;b:2;" ∈ onMessage ⟨some 0, some 1⟩ "a:1;b:2;" :=
  ⟨(c1_routing_iff ⟨some 0, some 1⟩ "ok").2 (by decide),
   (c1_routing_iff ⟨some 0, some 1⟩ "a:1;b:2;").1.mp (by decide)⟩

/-- C2 counterexample: the claim says a fragment is split on the FIRST
`:` with the value keeping any further colons (`"a:b:c"` would map `a` to
`"b:c"`), but the code destructures `pair.split(':')` as `[key, value]`,
so the value is only the text between the first and second colon
(`"a:b:c"` maps `a` to `"b"`). -/
theorem c2_first_colon_counterexample :
    ¬ lookupKV (parseStatusStringImpl "a:b:c;") "a"
        = specLookupFirst "a:b:c;" "a" := by
  decide

/-- C2 as amended: for every input string and every key, the value the
parsed mapping assigns to the key equals the one obtained by splitting
the input on `;`, interpreting each fragment by the per-fragment rule
`fragKV` (split on `:`; key = text before the first colon, value = text
between the first and second colon; trim both; drop on empty trimmed
key; no-colon fragments ignored), with the last matching fragment
winning. -/
theorem c2_parse_lookup (s q : String) :
    lookupKV (parseStatusStringImpl s) q = specLookup s q := by
  unfold parseStatusStringImpl specLookup
  rw [lookupKV_foldl]
  rfl

/-- C3: on every run of connectAndStream, the Connecting flag ends false;
the thunk's verdict is exactly the first failing step's message (per the
spec's step order) or success; and on any failure the full disconnect
cleanup sequence ran and the surfaced error is the original step failure,
not anything from the cleanup. -/
theorem c3_connect_failure_cleanup (w : World) (env : Env) :
    ((connectAndStreamThunk w env).1.sess.isConnecting = false)
    ∧ ((connectAndStreamThunk w env).2.2
        = (match expectedConnectFailure w env with
           | some m => Except.error m
           | none => Except.ok true))
    ∧ (∀ m, (connectAndStreamThunk w env).2.2 = Except.error m →
        ((connectAndStreamThunk w env).2.1.filter isStepMarker
            = [Event.callFfmpegStop, Event.callSendStreamoff,
               Event.callTelloClose, Event.callUnlock]
          ∧ (connectAndStreamThunk w env).1.sess.errorMessage
              = some ("Connect Error: " ++ m))) := by
  cases w with
  | mk sess link =>
      cases link with
      | mk cs cb =>
          cases env with
          | mk ns be ce se fstart fstop soff cerr =>
              cases cs <;> cases be <;> cases ce <;> cases se <;> cases fstart <;>
                simp [connectAndStreamThunk, connectFail, initLink, sendCommand,
                      expectedConnectFailure, List.filter_append,
                      disconnectThunk_trace_filter, isStepMarker]

/-- C3 witness: with the stream-enable send failing, the cleanup steps all
run and the surfaced error is the original send failure. -/
theorem c3_connect_failure_cleanup_witness :
    (connectAndStreamThunk w0 envStreamonFail).2.1.filter isStepMarker
        = [Event.callFfmpegStop, Event.callSendStreamoff,
           Event.callTelloClose, Event.callUnlock]
    ∧ (connectAndStreamThunk w0 envStreamonFail).1.sess.errorMessage
        = some ("Connect Error: " ++ "boom") :=
  (c3_connect_failure_cleanup w0 envStreamonFail).2.2 "boom" (by decide)

/-- C4: disconnect, from any state and under any combination of step
failures, resolves successfully, leaves the slice Idle with no error,
dispatches the not-streaming/not-connecting markings before any cleanup
work, and performs all four cleanup steps in order. -/
theorem c4_disconnect_best_effort (w : World) (env : Env) :
    (disconnectThunk w env).2.2 = Except.ok true
    ∧ (disconnectThunk w env).1.sess
        = { isConnecting := false, isStreaming := false, errorMessage := none }
    ∧ (disconnectThunk w env).2.1.take 2
        = [Event.dispatchSetStreaming false, Event.dispatchSetConnecting false]
    ∧ (disconnectThunk w env).2.1.filter isStepMarker
        = [Event.callFfmpegStop, Event.callSendStreamoff,
           Event.callTelloClose, Event.callUnlock] :=
  ⟨disconnectThunk_result w env, disconnectThunk_sess w env,
   disconnectThunk_trace_take w env, disconnectThunk_trace_filter w env⟩

/-- C5 (code-bug evaluation): with an open link and a registered
observer, a fatal transport error makes the handler call `close()` —
which tears the state down — but, because `close()` has already nulled
`statusCallback` by the time the handler reaches its
`if (statusCallback)` check, the observer is never notified with the
`{error: ...}` payload the claim promises. -/
theorem c5_socket_error_never_notifies :
    (onSocketError ⟨some 0, some 7⟩ "ECONNRESET").1 = ⟨none, none⟩
    ∧ (onSocketError ⟨some 0, some 7⟩ "ECONNRESET").2.filter isErrorNotify
        = [] := by
  decide

/-- C6 counterexample: from the fresh world, with every step succeeding,
connectAndStream resolves successfully, yet the link holds NO observer,
and a subsequent well-formed telemetry datagram — one the classification
rule routes to the Codec — is delivered to no observer, so the Session
State's fields are never updated from telemetry. -/
theorem c6_connect_no_observer_counterexample :
    (connectAndStreamThunk w0 envOK).2.2 = Except.ok true
    ∧ (connectAndStreamThunk w0 envOK).1.link.statusCallback = none
    ∧ (onMessage (connectAndStreamThunk w0 envOK).1.link
        "bat:87;time:12;").filter isTelemetryDelivery = []
    ∧ (jsIncludes "bat:87;time:12;" ':' && jsIncludes "bat:87;time:12;" ';')
        = true := by
  decide

/-- C6 as amended: connectAndStream invokes `telloService.initialize()`
with no callback argument, so after any run of the thunk the stored
observer is `none` and no inbound datagram is delivered to an observer;
telemetry therefore never updates the Session State (whose initial state
carries no battery/flight-time/last-update fields). -/
theorem c6_connect_no_observer (w : World) (env : Env) :
    (connectAndStreamThunk w env).1.link.statusCallback = none
    ∧ ∀ msg, (onMessage (connectAndStreamThunk w env).1.link msg).filter
        isTelemetryDelivery = [] :=
  ⟨connect_link_no_observer w env,
   fun msg =>
     onMessage_no_observer _ msg (connect_link_no_observer w env)⟩

/-- C7: a second `initialize` call with a socket already present resolves
without a bind attempt and without error, the new observer replacing the
old one; a bind failure from the closed state rejects with the bind
message and retains no partial state — neither endpoint nor observer. -/
theorem c7_open_idempotent_bind_failure (st : TelloState) (obs : Option Nat)
    (ns : Nat) (be : Option String) :
    (∀ s, st.commandSocket = some s →
        initLink st obs ns be
          = (⟨some s, obs⟩, Except.ok (),
             [Event.log "Tello Service: Socket already initialized."]))
    ∧ (∀ e, st.commandSocket = none →
        initLink st obs ns (some e)
          = (⟨none, none⟩,
             Except.error
               ("Tello Service: Failed to bind socket to port "
                 ++ toString LOCAL_COMMAND_PORT_BIND ++ ": " ++ e),
             [Event.bindAttempt LOCAL_COMMAND_PORT_BIND])) := by
  constructor
  · intro s hs
    cases st with
    | mk cs cb => cases hs; rfl
  · intro e hs
    cases st with
    | mk cs cb => cases hs; rfl

/-- C7 witness: a concrete re-open and a concrete bind failure. -/
theorem c7_open_idempotent_bind_failure_witness :
    initLink ⟨some 5, some 1⟩ (some 2) 9 none
        = (⟨some 5, some 2⟩, Except.ok (),
           [Event.log "Tello Service: Socket already initialized."])
    ∧ initLink ⟨none, none⟩ (some 2) 9 (some "EADDRINUSE")
        = (⟨none, none⟩,
           Except.error
             ("Tello Service: Failed to bind socket to port "
               ++ toString LOCAL_COMMAND_PORT_BIND ++ ": " ++ "EADDRINUSE"),
           [Event.bindAttempt LOCAL_COMMAND_PORT_BIND]) :=
  ⟨(c7_open_idempotent_bind_failure ⟨some 5, some 1⟩ (some 2) 9 none).1 5 rfl,
   (c7_open_idempotent_bind_failure ⟨none, none⟩ (some 2) 9 none).2
     "EADDRINUSE" rfl⟩

/-- C8: `sendCommand` with no socket rejects with the not-initialized
error and performs no network I/O; with an open socket it hands the
command to the transport addressed to the fixed peer address and port. -/
theorem c8_send_not_open (st : TelloState) (cmd : String) (se : Option String) :
    (st.commandSocket = none →
        sendCommand st cmd se = (Except.error "Socket not initialized", []))
    ∧ (∀ s, st.commandSocket = some s →
        (sendCommand st cmd se).2
          = [Event.udpSend cmd TELLO_COMMAND_PORT TELLO_IP]) := by
  constructor
  · intro h
    cases st with
    | mk cs cb => cases h; rfl
  · intro s h
    cases st with
    | mk cs cb =>
        cases h
        unfold sendCommand
        cases se <;> rfl

/-- C8 witness: a concrete never-opened send and a concrete open send. -/
theorem c8_send_not_open_witness :
    sendCommand ⟨none, none⟩ "command" none
        = (Except.error "Socket not initialized", [])
    ∧ (sendCommand ⟨some 3, none⟩ "takeoff" none).2
        = [Event.udpSend "takeoff" TELLO_COMMAND_PORT TELLO_IP] :=
  ⟨(c8_send_not_open ⟨none, none⟩ "command" none).1 rfl,
   (c8_send_not_open ⟨some 3, none⟩ "takeoff" none).2 3 rfl⟩

/-- C9: `close` always resolves, in every state, even when releasing the
endpoint throws; running it twice equals running it once; afterwards no
socket remains; and when a socket was present the observer reference is
cleared as well. -/
theorem c9_close_total_idempotent (st : TelloState) (e e' : Option String) :
    (close st e).2.1 = Except.ok ()
    ∧ (close (close st e).1 e').1 = (close st e).1
    ∧ (close st e).1.commandSocket = none
    ∧ (st.commandSocket.isSome = true →
        (close st e).1.statusCallback = none) := by
  cases st with
  | mk cs cb =>
      cases cs with
      | none => exact ⟨rfl, rfl, rfl, fun h => by simp at h⟩
      | some s => exact ⟨rfl, rfl, rfl, fun _ => rfl⟩

/-- C9 witness: closing an open link whose release throws still resolves
and clears the observer. -/
theorem c9_close_total_idempotent_witness :
    (close ⟨some 4, some 2⟩ (some "EBADF")).2.1 = Except.ok ()
    ∧ (close ⟨some 4, some 2⟩ (some "EBADF")).1.statusCallback = none :=
  ⟨(c9_close_total_idempotent ⟨some 4, some 2⟩ (some "EBADF") none).1,
   (c9_close_total_idempotent ⟨some 4, some 2⟩ (some "EBADF") none).2.2.2 rfl⟩

/-- C10: the codec is total on strings — the catastrophic-failure branch
returning `none` is unreachable, every input yields a mapping — and the
empty string parses to the empty mapping. -/
theorem c10_parse_total :
    (∀ s : String, (parseStatusString s).isSome = true)
    ∧ parseStatusString "" = some [] :=
  ⟨fun _ => rfl, by decide⟩

end DroneMobile
